import Mathlib

/-
  Verification development for the rise_of_color repository.

  The repository is a JavaScript visualization whose data/state engine
  converts year-indexed raw RGB observations into a deduplicated,
  positioned point cloud.  This file gives a shallow embedding of that
  engine and proves properties about it.

  Modelling conventions:
  - JavaScript numbers on the discrete paths (channel values, indices,
    counts) are embedded as Nat / Int; the float arithmetic of the
    HSL conversion and quantization grids is embedded as exact rational
    arithmetic; the trigonometric position math is embedded over the reals.
  - Math.random() draws are made explicit: functions that consume
    randomness take the drawn values as an argument, and the engine
    threads a stream of draws through its state.
  - A JavaScript Set of key strings is embedded as a list of quantized
    RGB triples (the key string of colorProcessor.js and visualization.js
    is the comma join of the channel values, which is in bijection with
    the triple).
  - Writing into a preallocated Float32Array at an out-of-range index is
    a silent no-op in JavaScript; List.set has exactly that semantics.
  - Code that would throw (iterating an absent field) is embedded with
    Except.
-/

/-- An RGB triple with channels 0 to 255, as the arrays [r, g, b] of the data. -/
abbrev RGB : Type := ℕ × ℕ × ℕ

/-- One group of Math.random() draws, each conceptually in [0, 1). -/
structure Jitter where
  u1 : ℚ
  u2 : ℚ
  u3 : ℚ

/-- CONFIG.jitter of config.js. -/
structure JitterCfg where
  enabled : Bool
  intensity : ℚ
  thetaStrength : ℚ
  phiStrength : ℚ
  radialJitter : ℚ

/-- CONFIG.smartSampling of config.js (first variant); absent in the second
variant, which reads as disabled. -/
structure SmartSamplingCfg where
  enabled : Bool
  prioritizeChroma : Bool

/-- The fields of the CONFIG object of config.js that the data engine reads. -/
structure Config where
  radius : ℚ
  shells : ℕ
  grayscaleThreshold : ℚ
  colorDepth : ℕ
  useHSLQuantization : Bool
  smartSampling : SmartSamplingCfg
  jitter : JitterCfg

/-- The CONFIG literal of config.js (first variant). -/
def CONFIG : Config where
  radius := 40
  shells := 50
  grayscaleThreshold := 0.05
  colorDepth := 7
  useHSLQuantization := true
  smartSampling := { enabled := true, prioritizeChroma := true }
  jitter := { enabled := true, intensity := 10, thetaStrength := 1.5,
              phiStrength := 1.5, radialJitter := 1 }

/-- rgbToHsl of config.js: channels are divided by 255 and converted to
(h, s, l); the switch on the maximal channel tests r first, then g, then b. -/
def rgbToHsl (rgb : RGB) : ℚ × ℚ × ℚ :=
  let r : ℚ := (rgb.1 : ℚ) / 255
  let g : ℚ := (rgb.2.1 : ℚ) / 255
  let b : ℚ := (rgb.2.2 : ℚ) / 255
  let mx := max r (max g b)
  let mn := min r (min g b)
  let l := (mx + mn) / 2
  if mx = mn then (0, 0, l)
  else
    let d := mx - mn
    let s := if l > 1/2 then d / (2 - mx - mn) else d / (mx + mn)
    let h :=
      if mx = r then (g - b) / d + (if g < b then (6 : ℚ) else 0)
      else if mx = g then (b - r) / d + 2
      else (r - g) / d + 4
    (h / 6, s, l)

/-- The hue2rgb helper of hslToRgb in config.js. -/
def hue2rgb (p q t0 : ℚ) : ℚ :=
  let t1 := if t0 < 0 then t0 + 1 else t0
  let t := if t1 > 1 then t1 - 1 else t1
  if t < 1/6 then p + (q - p) * 6 * t
  else if t < 1/2 then q
  else if t < 2/3 then p + (q - p) * (2/3 - t) * 6
  else p

/-- hslToRgb of config.js; Math.round(x) is the floor of x + 1/2, which is
the Mathlib round. -/
def hslToRgb (h s l : ℚ) : RGB :=
  if s = 0 then
    let v := (round (l * 255)).toNat
    (v, v, v)
  else
    let q := if l < 1/2 then l * (1 + s) else l + s - l * s
    let p := 2 * l - q
    ((round (hue2rgb p q (h + 1/3) * 255)).toNat,
     (round (hue2rgb p q h * 255)).toNat,
     (round (hue2rgb p q (h - 1/3) * 255)).toNat)

/-- The integer hash of greyAngle in config.js. -/
def greyHash (rgb : RGB) : ℕ :=
  (rgb.1 * 31 + rgb.2.1 * 17 + rgb.2.2 * 7) % 360

/-- quantizeColor of config.js: each channel is divided by
2 ^ (8 - colorDepth), floored, and multiplied back. -/
def quantizeColor (cfg : Config) (rgb : RGB) : RGB :=
  let factor := 2 ^ (8 - cfg.colorDepth)
  (rgb.1 / factor * factor, rgb.2.1 / factor * factor, rgb.2.2 / factor * factor)

/-- quantizeColorHSL of config.js: HSL-grid quantization with a fresh random
offset on every call (the rnd argument holds the three Math.random draws);
note the randomness is not gated by CONFIG.jitter.enabled. -/
def quantizeColorHSL (cfg : Config) (rnd : Jitter) (rgb : RGB) : RGB :=
  let hsl := rgbToHsl rgb
  let levels : ℚ := 2 ^ cfg.colorDepth
  let hueSteps : ℚ := (round (levels * 1.6) : ℤ)
  let satSteps : ℚ := (round (levels * 0.75) : ℤ)
  let lightSteps : ℚ := (round (levels * 0.75) : ℤ)
  let jit : ℚ := 1 / levels
  let hRand := (rnd.u1 - 0.5) * jit
  let sRand := (rnd.u2 - 0.5) * jit
  let lRand := (rnd.u3 - 0.5) * jit
  let hQ : ℚ := (round ((hsl.1 + hRand) * hueSteps) : ℤ) / hueSteps
  let sQ : ℚ := (round ((hsl.2.1 + sRand) * satSteps) : ℤ) / satSteps
  let lQ : ℚ := (round ((hsl.2.2 + lRand) * lightSteps) : ℤ) / lightSteps
  hslToRgb (max 0 (min 1 hQ)) (max 0 (min 1 sQ)) (max 0 (min 1 lQ))

/-- The chroma (1 - |2 l - 1|) * s of a raw color, as computed inside the
smart-sampling comparator of processYear (color-wheel-3d.js). -/
def chromaOf (rgb : RGB) : ℚ :=
  let hsl := rgbToHsl rgb
  (1 - |2 * hsl.2.2 - 1|) * hsl.2.1

/-- The order in which the JavaScript comparator (a, b) => chroma(b) - chroma(a)
sorts: a may come before b when the chroma of a is at least that of b. -/
def chromaGE (a b : RGB) : Prop := chromaOf b ≤ chromaOf a

instance : DecidableRel chromaGE := fun a b =>
  inferInstanceAs (Decidable (chromaOf b ≤ chromaOf a))

/-- colors.sort((a, b) => c2 - c1) of processYear (color-wheel-3d.js):
a stable sort by descending chroma. -/
def sortByChromaDesc (colors : List RGB) : List RGB :=
  colors.insertionSort chromaGE

/-- greyAngle of config.js: a deterministic pseudo-angle for grayscale colors. -/
noncomputable def greyAngle (rgb : RGB) : ℝ :=
  ((greyHash rgb : ℚ) / 360 : ℚ) * Real.pi * 2

/-- The record returned by calculatePosition in config.js. -/
structure ColorSample where
  x : ℝ
  y : ℝ
  z : ℝ
  shell : ℤ
  h : ℚ
  s : ℚ
  l : ℚ
  c : ℚ
  r : ℝ
  phi : ℝ
  theta : ℝ
  rgb : RGB
  isGrayscale : Bool

/-- calculatePosition of config.js.  The rnd argument carries the three
Math.random() draws of the jitter branch; they are ignored when
CONFIG.jitter.enabled is false. -/
noncomputable def calculatePosition (cfg : Config) (rnd : Jitter) (rgb : RGB) : ColorSample :=
  let hsl := rgbToHsl rgb
  let h := hsl.1
  let s := hsl.2.1
  let l := hsl.2.2
  let isGrayscale : Bool := decide (s < cfg.grayscaleThreshold)
  let c := (1 - |2 * l - 1|) * s
  let R : ℝ := (cfg.radius : ℚ)
  let thetaJitter : ℚ :=
    if cfg.jitter.enabled then
      (rnd.u1 - 0.5) * (1 / ((2 ^ cfg.colorDepth : ℚ) * 1.6) * cfg.jitter.intensity)
        * cfg.jitter.thetaStrength
    else 0
  let phiJitter : ℚ :=
    if cfg.jitter.enabled then
      (rnd.u2 - 0.5) * (1 / ((2 ^ cfg.colorDepth : ℚ) * 1.6) * cfg.jitter.intensity)
        * cfg.jitter.phiStrength
    else 0
  let radialJitter : ℚ :=
    if cfg.jitter.enabled then
      if cfg.jitter.radialJitter > 0 then 1 + (rnd.u3 - 0.5) * cfg.jitter.radialJitter * 0.2
      else 1
    else 1
  let theta : ℝ :=
    if isGrayscale then greyAngle rgb + (thetaJitter : ℚ)
    else 2 * Real.pi * (h : ℚ) + (thetaJitter : ℚ)
  let phi : ℝ := (1 - (l : ℚ)) * Real.pi + (phiJitter : ℚ)
  let rMax : ℝ := R * Real.sin phi
  let r : ℝ := (if isGrayscale then 0.1 * rMax else (s : ℚ) * rMax) * (radialJitter : ℚ)
  { x := r * Real.cos theta
    y := R * Real.cos phi
    z := r * Real.sin theta
    shell := ⌊(1 - s) * (cfg.shells : ℚ)⌋
    h := h, s := s, l := l, c := c
    r := r, phi := phi, theta := theta
    rgb := rgb
    isGrayscale := isGrayscale }

/-- The rgb field of a sample is the color it was computed from. -/
theorem calculatePosition_rgb (cfg : Config) (rnd : Jitter) (rgb : RGB) :
    (calculatePosition cfg rnd rgb).rgb = rgb := rfl

/-- The preallocated instanced-mesh attributes created by
setupShaderInstancedMesh (renderer.js): flat typed arrays of a fixed
estimated capacity plus the instance count.  An out-of-range List.set is a
no-op, exactly like an out-of-range typed-array write. -/
structure Mesh where
  posAttr : List (ℝ × ℝ × ℝ)
  scaleAttr : List ℚ
  shellAttr : List ℤ
  colorAttr : List (ℚ × ℚ × ℚ)
  count : ℕ

/-- setupShaderInstancedMesh (renderer.js): zero-filled attribute arrays of
the estimated capacity. -/
noncomputable def mkMesh (estimatedCount : ℕ) : Mesh where
  posAttr := List.replicate estimatedCount (0, 0, 0)
  scaleAttr := List.replicate estimatedCount 0
  shellAttr := List.replicate estimatedCount 0
  colorAttr := List.replicate estimatedCount (0, 0, 0)
  count := estimatedCount

/-- ColorProcessor.addYearColors (colorProcessor.js): writes each new sample
at instanceCount into the position, scale and color attributes, incrementing
instanceCount, then publishes instanceCount as the mesh count.  There is no
capacity check: setXYZ past the preallocated length is silently ignored. -/
def addYearColors (yearColors : List ColorSample) (mesh : Mesh) (instanceCount : ℕ) :
    Mesh × ℕ :=
  let step := fun (mc : Mesh × ℕ) (cd : ColorSample) =>
    ({ mc.1 with
        posAttr := mc.1.posAttr.set mc.2 (cd.x, cd.y, cd.z)
        scaleAttr := mc.1.scaleAttr.set mc.2 (0.8 + cd.c * 0.4)
        colorAttr := mc.1.colorAttr.set mc.2
          ((cd.rgb.1 : ℚ) / 255, (cd.rgb.2.1 : ℚ) / 255, (cd.rgb.2.2 : ℚ) / 255) },
      mc.2 + 1)
  let mc := yearColors.foldl step (mesh, instanceCount)
  ({ mc.1 with count := mc.2 }, mc.2)

/-- addYearColors of color-wheel-3d.js: as above but also writing the shell
attribute. -/
def addYearColorsCW (yearColors : List ColorSample) (mesh : Mesh) (instanceCount : ℕ) :
    Mesh × ℕ :=
  let step := fun (mc : Mesh × ℕ) (cd : ColorSample) =>
    ({ mc.1 with
        posAttr := mc.1.posAttr.set mc.2 (cd.x, cd.y, cd.z)
        scaleAttr := mc.1.scaleAttr.set mc.2 (0.8 + cd.c * 0.4)
        shellAttr := mc.1.shellAttr.set mc.2 cd.shell
        colorAttr := mc.1.colorAttr.set mc.2
          ((cd.rgb.1 : ℚ) / 255, (cd.rgb.2.1 : ℚ) / 255, (cd.rgb.2.2 : ℚ) / 255) },
      mc.2 + 1)
  let mc := yearColors.foldl step (mesh, instanceCount)
  ({ mc.1 with count := mc.2 }, mc.2)

/-- A record of the history dataset in the triple-array form consumed by
visualization.js and color-wheel-3d.js; a malformed record has no color
field (color = none). -/
structure YearRecord where
  year : ℤ
  color : Option (List RGB)

/-- The default used for an out-of-range (unreachable) data access. -/
def dYR : YearRecord := { year := 0, color := none }

/-- A record of the history dataset in the packed 24-bit integer form
consumed by timeline.js through ColorProcessor.processYear. -/
structure PackedYearRecord where
  year : ℤ
  color : Option (List ℕ)

/-- The application state of visualization.js (and of color-wheel-3d.js):
the loaded data, the year cursor i (-1 before the first year), the playing
flag, the accumulated colorData samples, the seen set of quantized keys,
the counters, the instanced mesh, and the position of the engine in the
stream of Math.random draws. -/
structure VizState where
  data : List YearRecord
  i : ℤ
  playing : Bool
  colorData : List ColorSample
  seen : List RGB
  totalSpheres : ℕ
  instanceCount : ℕ
  mesh : Mesh
  rngIdx : ℕ

/-- The state right after initVisualization of visualization.js: data
loaded, cursor at -1, empty store and seen set, a fresh mesh preallocated
for 2000000 instances. -/
noncomputable def initViz (data : List YearRecord) : VizState where
  data := data
  i := -1
  playing := true
  colorData := []
  seen := []
  totalSpheres := 0
  instanceCount := 0
  mesh := mkMesh 2000000
  rngIdx := 0

/-- The color loop of processYear (visualization.js): quantize each raw
color with quantizeColor, skip keys already seen, otherwise add the key,
compute the position from the quantized color, and push it to both the
accumulator of the year and state.colorData. -/
noncomputable def processColors (cfg : Config) (rng : ℕ → Jitter) :
    List RGB → VizState → List ColorSample → VizState × List ColorSample
  | [], st, acc => (st, acc)
  | rgb :: rest, st, acc =>
    let q := quantizeColor cfg rgb
    if q ∈ st.seen then processColors cfg rng rest st acc
    else
      let position := calculatePosition cfg (rng st.rngIdx) q
      processColors cfg rng rest
        { st with
            seen := q :: st.seen
            colorData := st.colorData ++ [position]
            totalSpheres := st.totalSpheres + 1
            rngIdx := st.rngIdx + 1 }
        (acc ++ [position])

/-- processYear of visualization.js: a missing color field is guarded by
yearData.color || [] and processed as an empty list. -/
noncomputable def processYear (cfg : Config) (rng : ℕ → Jitter)
    (yearData : YearRecord) (st : VizState) : VizState × List ColorSample :=
  processColors cfg rng (yearData.color.getD []) st []

/-- step of visualization.js: at or past the last index it only pauses;
otherwise it advances the cursor, processes that year and appends the new
samples to the mesh. -/
noncomputable def stepViz (cfg : Config) (rng : ℕ → Jitter) (st : VizState) : VizState :=
  if st.i ≥ (st.data.length : ℤ) - 1 then
    { st with playing := false }
  else
    let yearData := st.data.getD (st.i + 1).toNat dYR
    let pr := processYear cfg rng yearData { st with i := st.i + 1 }
    let am := addYearColors pr.2 pr.1.mesh pr.1.instanceCount
    { pr.1 with mesh := am.1, instanceCount := am.2 }

/-- reset of visualization.js on the isJumping path: pause, clear the
cursor, store, seen set and counters, and preallocate a fresh mesh. -/
noncomputable def resetViz (st : VizState) : VizState :=
  { st with
      playing := false
      i := -1
      colorData := []
      seen := []
      totalSpheres := 0
      instanceCount := 0
      mesh := mkMesh 2000000 }

/-- The while (state.i < index) step() loop of jumpToYear, with explicit
fuel.  Whenever the source loop terminates, running it with enough fuel
gives the same result. -/
noncomputable def stepUntil (cfg : Config) (rng : ℕ → Jitter) (index : ℕ) :
    ℕ → VizState → VizState
  | 0, st => st
  | fuel + 1, st =>
    if st.i < (index : ℤ) then stepUntil cfg rng index fuel (stepViz cfg rng st)
    else st

/-- jumpToYear of visualization.js: a backward jump resets and sets the
cursor to -1, then the loop steps forward until the cursor reaches the
index.  From a cursor at least -1 the loop runs at most index + 1 times,
so fuel index + 2 suffices. -/
noncomputable def jumpToYear (cfg : Config) (rng : ℕ → Jitter) (index : ℕ)
    (st : VizState) : VizState :=
  let st1 := if (index : ℤ) < st.i then { resetViz st with i := -1 } else st
  stepUntil cfg rng index (index + 2) st1

/-- The state driven by timeline.js with ColorProcessor (colorProcessor.js),
whose records carry packed 24-bit colors. -/
structure TLState where
  data : List PackedYearRecord
  i : ℤ
  playing : Bool
  colorData : List ColorSample
  seen : List RGB
  totalSpheres : ℕ
  instanceCount : ℕ
  mesh : Mesh
  rngIdx : ℕ

/-- The state right after Timeline.initVisualization: cursor -1, cleared
store and seen set, a mesh preallocated for 2000000 instances. -/
noncomputable def initTL (data : List PackedYearRecord) : TLState where
  data := data
  i := -1
  playing := true
  colorData := []
  seen := []
  totalSpheres := 0
  instanceCount := 0
  mesh := mkMesh 2000000
  rngIdx := 0

/-- The packed-color loop of ColorProcessor.processYear (colorProcessor.js):
unpack r, g, b with shifts and masks, use the raw triple as the key with no
quantization, skip seen keys, otherwise record the key and compute the
position of the raw color. -/
noncomputable def processPacked (cfg : Config) (rng : ℕ → Jitter) :
    List ℕ → TLState → List ColorSample → TLState × List ColorSample
  | [], st, acc => (st, acc)
  | packed :: rest, st, acc =>
    let key : RGB := (packed / 65536 % 256, packed / 256 % 256, packed % 256)
    if key ∈ st.seen then processPacked cfg rng rest st acc
    else
      let colorData := calculatePosition cfg (rng st.rngIdx) key
      processPacked cfg rng rest
        { st with seen := key :: st.seen, rngIdx := st.rngIdx + 1 }
        (acc ++ [colorData])

/-- ColorProcessor.processYear (colorProcessor.js): iterates yearData.color
directly, so a missing color field throws a TypeError (Except.error);
the samples collected by the loop are copied into state.colorData after
the loop. -/
noncomputable def processYearCP (cfg : Config) (rng : ℕ → Jitter)
    (yearData : PackedYearRecord) (st : TLState) :
    Except Unit (TLState × List ColorSample) :=
  match yearData.color with
  | none => Except.error ()
  | some packs =>
    let pr := processPacked cfg rng packs st []
    Except.ok ({ pr.1 with colorData := pr.1.colorData ++ pr.2 }, pr.2)

/-- Timeline.step (timeline.js): at or past the last index it pauses and
returns with the data state untouched; otherwise it advances the cursor,
processes the year with ColorProcessor.processYear and appends the new
samples to the mesh. -/
noncomputable def stepTL (cfg : Config) (rng : ℕ → Jitter) (st : TLState) :
    Except Unit TLState :=
  if st.i ≥ (st.data.length : ℤ) - 1 then
    Except.ok { st with playing := false }
  else
    let yearData := st.data.getD (st.i + 1).toNat { year := 0, color := none }
    match processYearCP cfg rng yearData { st with i := st.i + 1 } with
    | Except.error e => Except.error e
    | Except.ok pr =>
      let am := addYearColors pr.2 pr.1.mesh pr.1.instanceCount
      Except.ok { pr.1 with mesh := am.1, instanceCount := am.2 }

/-- n invocations of Timeline.step, stopping at the first thrown error. -/
noncomputable def replayTL (cfg : Config) (rng : ℕ → Jitter) :
    ℕ → TLState → Except Unit TLState
  | 0, st => Except.ok st
  | n + 1, st =>
    match stepTL cfg rng st with
    | Except.error e => Except.error e
    | Except.ok st1 => replayTL cfg rng n st1

/-- The contents of the color array of a year record after processYear of
color-wheel-3d.js has run on it: the chroma-prioritizing policy sorts the
array in place (colors.sort mutates the array the record references);
a missing color field yields a fresh empty array, leaving the record as is. -/
def mutatedColor (cfg : Config) (c : Option (List RGB)) : Option (List RGB) :=
  c.map fun cs =>
    if cfg.smartSampling.enabled && cfg.smartSampling.prioritizeChroma then
      sortByChromaDesc cs
    else cs

/-- The color loop of processYear (color-wheel-3d.js): quantize with
quantizeColorHSL or quantizeColor according to CONFIG.useHSLQuantization,
then dedup and push as in the other variants.  quantizeColorHSL consumes
random draws on every call; calculatePosition consumes draws only for
newly admitted colors. -/
noncomputable def processColorsCW (cfg : Config) (rng : ℕ → Jitter) :
    List RGB → VizState → List ColorSample → VizState × List ColorSample
  | [], st, acc => (st, acc)
  | rgb :: rest, st, acc =>
    let q := if cfg.useHSLQuantization then quantizeColorHSL cfg (rng st.rngIdx) rgb
             else quantizeColor cfg rgb
    let st0 := if cfg.useHSLQuantization then { st with rngIdx := st.rngIdx + 1 } else st
    if q ∈ st0.seen then processColorsCW cfg rng rest st0 acc
    else
      let position := calculatePosition cfg (rng st0.rngIdx) q
      processColorsCW cfg rng rest
        { st0 with
            seen := q :: st0.seen
            colorData := st0.colorData ++ [position]
            totalSpheres := st0.totalSpheres + 1
            rngIdx := st0.rngIdx + 1 }
        (acc ++ [position])

/-- step of color-wheel-3d.js: past the last index it pauses; otherwise it
advances the cursor and runs processYear, whose in-place sort leaves the
processed record holding the chroma-sorted array. -/
noncomputable def stepCW (cfg : Config) (rng : ℕ → Jitter) (st : VizState) : VizState :=
  if st.i ≥ (st.data.length : ℤ) - 1 then
    { st with playing := false }
  else
    let idx := (st.i + 1).toNat
    let yearData := st.data.getD idx dYR
    let colors := (mutatedColor cfg yearData.color).getD []
    let pr := processColorsCW cfg rng colors
      { st with
          i := st.i + 1
          data := st.data.set idx { yearData with color := mutatedColor cfg yearData.color } }
      []
    let am := addYearColorsCW pr.2 pr.1.mesh pr.1.instanceCount
    { pr.1 with mesh := am.1, instanceCount := am.2 }

/-- A cluster snapshot of the cluster dataset: centroid colors, their
member counts and the total color count of the year. -/
structure ClusterSnapshot where
  centroids : List RGB
  counts : List ℕ
  total_colors : ℕ
deriving DecidableEq

/-- JavaScript object property access on an integer-keyed object, as an
association list lookup. -/
def objGet {β : Type} : List (ℕ × β) → ℕ → Option β
  | [], _ => none
  | (k, v) :: rest, y => if k = y then some v else objGet rest y

/-- The year_clusters object: year keys mapping to objects keyed by k. -/
abbrev ClusterData : Type := List (ℕ × List (ℕ × ClusterSnapshot))

/-- getYearClusters of cluster_viz.js: with no loaded data the result is
null.  Otherwise, if the exact year has no entry, the candidate year is the
last entry of the ascending-sorted year keys that is at most the target
(pop of the filtered sorted array); the JavaScript truthiness test on the
candidate also rejects year 0.  Finally the resolved year entry is looked
up at k, yielding null when that year has no entry for k. -/
def getYearClusters (clusterData : Option ClusterData) (year k : ℕ) :
    Option ClusterSnapshot :=
  match clusterData with
  | none => none
  | some data =>
    let years := (data.map Prod.fst).insertionSort (· ≤ ·)
    let target : Option ℕ :=
      if (objGet data year).isSome then some year
      else
        match (years.filter (· ≤ year)).getLast? with
        | some nearestYear => if nearestYear = 0 then none else some nearestYear
        | none => none
    match target with
    | none => none
    | some ty =>
      match objGet data ty with
      | some yearData => objGet yearData k
      | none => none

/-- A constant stream of random draws, used for concrete evaluations. -/
def rng0 : ℕ → Jitter := fun _ => { u1 := 0, u2 := 0, u3 := 0 }

/-- The repository CONFIG with position jitter turned off. -/
def cfgNoJitter : Config :=
  { CONFIG with jitter := { CONFIG.jitter with enabled := false } }

/-- An element produced by getLast? is a member of the list. -/
theorem mem_of_getLast?_eq {α : Type} :
    ∀ {l : List α} {a : α}, l.getLast? = some a → a ∈ l
  | [], _, h => by cases h
  | [x], a, h => by
    simp only [List.getLast?_singleton, Option.some.injEq] at h
    simp [h]
  | x :: y :: l, a, h => by
    have h2 : (y :: l).getLast? = some a := by simpa using h
    exact List.mem_cons_of_mem x (mem_of_getLast?_eq h2)

/-- Claim C10: for every RGB triple with integer channels in 0..255 and a
color depth of at most 8 bits, quantizeColor returns a triple whose channels
are multiples of 2 ^ (8 - colorDepth) lying in 0..255, and quantizeColor is
idempotent, so re-processing admitted colors can never create new dedup keys. -/
theorem claim10_quantize_idem_range (cfg : Config) (rgb : RGB)
    (hd : cfg.colorDepth ≤ 8)
    (h1 : rgb.1 ≤ 255) (h2 : rgb.2.1 ≤ 255) (h3 : rgb.2.2 ≤ 255) :
    (2 ^ (8 - cfg.colorDepth) ∣ (quantizeColor cfg rgb).1 ∧
     2 ^ (8 - cfg.colorDepth) ∣ (quantizeColor cfg rgb).2.1 ∧
     2 ^ (8 - cfg.colorDepth) ∣ (quantizeColor cfg rgb).2.2) ∧
    ((quantizeColor cfg rgb).1 ≤ 255 ∧ (quantizeColor cfg rgb).2.1 ≤ 255 ∧
     (quantizeColor cfg rgb).2.2 ≤ 255) ∧
    quantizeColor cfg (quantizeColor cfg rgb) = quantizeColor cfg rgb := by
  have hpos : 0 < 2 ^ (8 - cfg.colorDepth) := pow_pos (by norm_num) _
  refine ⟨⟨dvd_mul_left _ _, dvd_mul_left _ _, dvd_mul_left _ _⟩,
    ⟨le_trans (Nat.div_mul_le_self _ _) h1, le_trans (Nat.div_mul_le_self _ _) h2,
     le_trans (Nat.div_mul_le_self _ _) h3⟩, ?_⟩
  unfold quantizeColor
  simp only [Nat.mul_div_cancel _ hpos]

/-- Claim C10 witness at the repository CONFIG and the color (10, 200, 255). -/
theorem claim10_quantize_idem_range_witness :
    (CONFIG.colorDepth ≤ 8 ∧ (10 : ℕ) ≤ 255 ∧ (200 : ℕ) ≤ 255 ∧ (255 : ℕ) ≤ 255) ∧
    ((2 ^ (8 - CONFIG.colorDepth) ∣ (quantizeColor CONFIG (10, 200, 255)).1 ∧
      2 ^ (8 - CONFIG.colorDepth) ∣ (quantizeColor CONFIG (10, 200, 255)).2.1 ∧
      2 ^ (8 - CONFIG.colorDepth) ∣ (quantizeColor CONFIG (10, 200, 255)).2.2) ∧
     ((quantizeColor CONFIG (10, 200, 255)).1 ≤ 255 ∧
      (quantizeColor CONFIG (10, 200, 255)).2.1 ≤ 255 ∧
      (quantizeColor CONFIG (10, 200, 255)).2.2 ≤ 255) ∧
     quantizeColor CONFIG (quantizeColor CONFIG (10, 200, 255)) =
       quantizeColor CONFIG (10, 200, 255)) :=
  ⟨⟨by decide, by decide, by decide, by decide⟩,
   claim10_quantize_idem_range CONFIG (10, 200, 255) (by decide) (by decide) (by decide)
     (by decide)⟩

/-- Claim C4: for every state whose cursor is at or beyond the last year
index, Timeline.step only pauses: it returns normally with playing set to
false and every other state component (cursor, seen set, colorData, counters,
mesh) unchanged. -/
theorem claim4_step_at_end (cfg : Config) (rng : ℕ → Jitter) (st : TLState)
    (h : st.i ≥ (st.data.length : ℤ) - 1) :
    stepTL cfg rng st = Except.ok { st with playing := false } := by
  unfold stepTL
  rw [if_pos h]

/-- A concrete timeline state sitting at the last year index. -/
noncomputable def exTLEnd : TLState where
  data := [{ year := 1850, color := some [660000] }]
  i := 0
  playing := true
  colorData := []
  seen := []
  totalSpheres := 0
  instanceCount := 0
  mesh := mkMesh 4
  rngIdx := 0

/-- Claim C4 witness at a concrete at-the-end state. -/
theorem claim4_step_at_end_witness :
    exTLEnd.i ≥ (exTLEnd.data.length : ℤ) - 1 ∧
    stepTL CONFIG rng0 exTLEnd = Except.ok { exTLEnd with playing := false } :=
  ⟨by decide, claim4_step_at_end CONFIG rng0 exTLEnd (by decide)⟩

/-- A mesh preallocated for a single instance. -/
noncomputable def exMesh1 : Mesh where
  posAttr := [(0, 0, 0)]
  scaleAttr := [0]
  shellAttr := [0]
  colorAttr := [(0, 0, 0)]
  count := 1

/-- A concrete sample with position (1, 2, 3). -/
noncomputable def sampleA : ColorSample where
  x := 1
  y := 2
  z := 3
  shell := 0
  h := 0
  s := 0
  l := 0
  c := 0
  r := 0
  phi := 0
  theta := 0
  rgb := (10, 20, 30)
  isGrayscale := false

/-- A concrete sample with position (4, 5, 6). -/
noncomputable def sampleB : ColorSample where
  x := 4
  y := 5
  z := 6
  shell := 0
  h := 0
  s := 0
  l := 0
  c := 0
  r := 0
  phi := 0
  theta := 0
  rgb := (40, 50, 60)
  isGrayscale := false

/-- Claim C7, failing input: appending a year with two new samples to a mesh
preallocated for one instance returns normally with no error of any kind;
the instance count advances to 2, past the capacity, while the position
attribute still holds only the first sample: the second sample was silently
dropped by the out-of-range typed-array write, not surfaced as a capacity
error. -/
theorem claim7_capacity_silent_drop :
    (addYearColors [sampleA, sampleB] exMesh1 0).2 = 2 ∧
    (addYearColors [sampleA, sampleB] exMesh1 0).1.count = 2 ∧
    (addYearColors [sampleA, sampleB] exMesh1 0).1.posAttr =
      [(sampleA.x, sampleA.y, sampleA.z)] ∧
    (addYearColors [sampleA, sampleB] exMesh1 0).1.posAttr.length = 1 :=
  ⟨rfl, rfl, rfl, rfl⟩

/-- Claim C8 counterexample: a year record with a missing color field makes
Timeline.step throw (ColorProcessor.processYear iterates the absent field),
rather than completing as a year with zero colors. -/
noncomputable def exTLMissing : TLState where
  data := [{ year := 1850, color := none }]
  i := -1
  playing := true
  colorData := []
  seen := []
  totalSpheres := 0
  instanceCount := 0
  mesh := mkMesh 4
  rngIdx := 0

/-- Claim C8 counterexample: the claim states that a missing color field is
processed as a year with zero colors without raising an error, but stepping
into such a record through ColorProcessor.processYear raises instead. -/
theorem claim8_counterexample :
    stepTL CONFIG rng0 exTLMissing = Except.error () := rfl

/-- Claim C8 amended: the guarded processYear of visualization.js treats a
missing color field exactly as a year containing zero colors: it returns
normally and leaves the state (in particular colorData and the seen set)
unchanged.  The ColorProcessor.processYear path of timeline.js instead
throws on such a record (see the counterexample). -/
theorem claim8_missing_color_amended (cfg : Config) (rng : ℕ → Jitter)
    (st : VizState) (y : ℤ) :
    processYear cfg rng { year := y, color := none } st = (st, []) ∧
    processYear cfg rng { year := y, color := none } st =
      processYear cfg rng { year := y, color := some [] } st :=
  ⟨rfl, rfl⟩

/-- A snapshot standing for the 1900 cluster data. -/
def snap1900 : ClusterSnapshot where
  centroids := [(200, 30, 30)]
  counts := [5]
  total_colors := 5

/-- A snapshot standing for the 1950 cluster data. -/
def snap1950 : ClusterSnapshot where
  centroids := [(0, 200, 0)]
  counts := [7]
  total_colors := 7

/-- A cluster dataset with entries only for years 1900 and 1950, each with
data for k = 8: the example scenario of the specification. -/
def exClusters : ClusterData := [(1900, [(8, snap1900)]), (1950, [(8, snap1950)])]

/-- A sparse cluster dataset where year 1925 has an entry, but only for
k = 4, while year 1900 has data for k = 8. -/
def exClustersSparse : ClusterData := [(1900, [(8, snap1900)]), (1925, [(4, snap1950)])]

/-- Claim C6 counterexample: the claim states that lookup returns null
exactly when no year at or before the target has usable data for the query,
but with an entry for 1925 that lacks k = 8, getYearClusters 1925 8 returns
null even though year 1900, at or before 1925, has data for k = 8: the
fallback only triggers when the exact year has no entry at all. -/
theorem claim6_counterexample :
    getYearClusters (some exClustersSparse) 1925 8 = none ∧
    1900 ≤ 1925 ∧
    (objGet exClustersSparse 1900).bind (fun yd => objGet yd 8) = some snap1900 :=
  ⟨rfl, by decide, rfl⟩

/-- Claim C6 amended: whenever getYearClusters returns a snapshot it belongs
to some year at most the query year (the query year itself when it has an
entry, else the nearest earlier year with an entry); but lookup returns null
whenever the resolved year lacks an entry for the requested k, even if an
earlier year has one (see the counterexample).  On the example dataset with
entries only for 1900 and 1950, lookup at (1925, 8) yields the 1900 snapshot
and lookup at (1890, 8) yields null, as the claim states. -/
theorem claim6_fallback_amended :
    (∀ (data : ClusterData) (year k : ℕ) (snap : ClusterSnapshot),
        getYearClusters (some data) year k = some snap →
        ∃ y2, y2 ≤ year ∧ ∃ yd, objGet data y2 = some yd ∧ objGet yd k = some snap) ∧
    getYearClusters (some exClusters) 1925 8 = some snap1900 ∧
    getYearClusters (some exClusters) 1890 8 = none := by
  refine ⟨?_, rfl, rfl⟩
  intro data year k snap h
  simp only [getYearClusters] at h
  by_cases hex : (objGet data year).isSome = true
  · rw [if_pos hex] at h
    dsimp only at h
    cases hyd : objGet data year with
    | none => rw [hyd] at hex; cases hex
    | some yd =>
      rw [hyd] at h
      exact ⟨year, le_rfl, yd, hyd, h⟩
  · rw [if_neg hex] at h
    cases hlast :
        ((((data.map Prod.fst).insertionSort (· ≤ ·))).filter (· ≤ year)).getLast? with
    | none => rw [hlast] at h; cases h
    | some ny =>
      rw [hlast] at h
      dsimp only at h
      by_cases h0 : ny = 0
      · rw [if_pos h0] at h; cases h
      · rw [if_neg h0] at h
        dsimp only at h
        have hmem : ny ∈ (((data.map Prod.fst).insertionSort (· ≤ ·))).filter (· ≤ year) :=
          mem_of_getLast?_eq hlast
        have hle : ny ≤ year := by
          have := List.of_mem_filter hmem
          simpa using this
        cases hyd : objGet data ny with
        | none => rw [hyd] at h; cases h
        | some yd =>
          rw [hyd] at h
          exact ⟨ny, hle, yd, hyd, h⟩

/-- Claim C6 amended witness: the soundness part applied at the example
dataset and the (1925, 8) query. -/
theorem claim6_fallback_amended_witness :
    getYearClusters (some exClusters) 1925 8 = some snap1900 ∧
    ∃ y2, y2 ≤ 1925 ∧ ∃ yd, objGet exClusters y2 = some yd ∧ objGet yd 8 = some snap1900 :=
  ⟨rfl, claim6_fallback_amended.1 exClusters 1925 8 snap1900 rfl⟩

/-- Claim C3 counterexample: with the configured HSL quantization policy and
jitter disabled, two runs on the same RawColor (255, 0, 0) can still produce
different ColorSamples, because quantizeColorHSL draws fresh randomness on
every call independently of the jitter switch: with draws (0, 0, 0) the
quantized key is (255, 0, 0), with draws (1, 1, 1) it is (255, 7, 0). -/
theorem claim3_counterexample :
    (calculatePosition cfgNoJitter { u1 := 0, u2 := 0, u3 := 0 }
        (quantizeColorHSL cfgNoJitter { u1 := 0, u2 := 0, u3 := 0 } (255, 0, 0))).rgb ≠
      (calculatePosition cfgNoJitter { u1 := 0, u2 := 0, u3 := 0 }
        (quantizeColorHSL cfgNoJitter { u1 := 1, u2 := 1, u3 := 1 } (255, 0, 0))).rgb := by
  set_option maxRecDepth 8000 in
  with_unfolding_all decide

/-- Claim C3 amended: with the deterministic RGB-bucket quantization policy
and jitter disabled, quantizing and positioning the same RawColor twice, with
arbitrary random draws in each run, yields the very same ColorSample record
(hence identical quantized key, position, hue, saturation, lightness, chroma,
shell, and isGrayscale flag); the HSL-bucket policy does not enjoy this
(see the counterexample). -/
theorem claim3_determinism_amended (cfg : Config) (rnd1 rnd2 : Jitter) (rgb : RGB)
    (hj : cfg.jitter.enabled = false) :
    calculatePosition cfg rnd1 (quantizeColor cfg rgb) =
      calculatePosition cfg rnd2 (quantizeColor cfg rgb) := by
  simp only [calculatePosition, hj, Bool.false_eq_true, if_false]

/-- Claim C3 amended witness at the jitter-disabled CONFIG and the color
(10, 20, 30), with two distinct draw triples. -/
theorem claim3_determinism_amended_witness :
    cfgNoJitter.jitter.enabled = false ∧
    calculatePosition cfgNoJitter { u1 := 0, u2 := 0, u3 := 0 }
        (quantizeColor cfgNoJitter (10, 20, 30)) =
      calculatePosition cfgNoJitter { u1 := 1, u2 := 1, u3 := 1 }
        (quantizeColor cfgNoJitter (10, 20, 30)) :=
  ⟨rfl, claim3_determinism_amended cfgNoJitter { u1 := 0, u2 := 0, u3 := 0 }
    { u1 := 1, u2 := 1, u3 := 1 } (10, 20, 30) rfl⟩

/-- The color loop of color-wheel-3d.js never touches the loaded data list. -/
theorem processColorsCW_data (cfg : Config) (rng : ℕ → Jitter) :
    ∀ (colors : List RGB) (st : VizState) (acc : List ColorSample),
      (processColorsCW cfg rng colors st acc).1.data = st.data := by
  intro colors
  induction colors with
  | nil => intro st acc; rfl
  | cons rgb rest ih =>
    intro st acc
    by_cases hq : cfg.useHSLQuantization = true
    · simp only [processColorsCW, hq, if_true]
      split
      · exact ih _ _
      · exact ih _ _
    · simp only [processColorsCW, hq, Bool.false_eq_true, if_false]
      split
      · exact ih _ _
      · exact ih _ _

/-- Setting an in-range index and reading it back with a default yields the
written value. -/
theorem getD_set_self {α : Type} (l : List α) (i : ℕ) (v d : α) (h : i < l.length) :
    (l.set i v).getD i d = v := by
  simp [List.getD_eq_getElem?_getD, List.getElem?_set_self h]

/-- Claim C9 counterexample: a concrete state about to process the year 1850
whose colors are a gray followed by a vivid red.  With the configured
chroma-prioritization policy, step leaves the loaded record holding the
in-place-sorted array (red first), not the original order: the engine
mutates the loaded dataset. -/
noncomputable def exCWState : VizState where
  data := [{ year := 1850, color := some [(10, 10, 10), (255, 0, 0)] }]
  i := -1
  playing := true
  colorData := []
  seen := []
  totalSpheres := 0
  instanceCount := 0
  mesh := mkMesh 4
  rngIdx := 0

/-- Claim C9 counterexample: after one step of the chroma-prioritizing
variant, the processed year record holds its colors in a different order
than before the call. -/
theorem claim9_counterexample :
    ((stepCW CONFIG rng0 exCWState).data.getD 0 dYR).color =
      some [(255, 0, 0), (10, 10, 10)] ∧
    (exCWState.data.getD 0 dYR).color = some [(10, 10, 10), (255, 0, 0)] ∧
    some [(255, 0, 0), (10, 10, 10)] ≠ (some [(10, 10, 10), (255, 0, 0)] : Option (List RGB)) := by
  refine ⟨?_, rfl, by decide⟩
  set_option maxRecDepth 16000 in
  with_unfolding_all decide

/-- Claim C9 amended: step never adds or removes elements of the processed
year record: afterwards the record holds a permutation of its previous
colors, and exactly the original array when the chroma-prioritization policy
is off; but when the policy is on, the sort happens in place on the loaded
record (see the counterexample), so the dataset is not immutable. -/
theorem claim9_yearrecord_mutation_amended (cfg : Config) (rng : ℕ → Jitter)
    (st : VizState) (h1 : -1 ≤ st.i) (h2 : st.i < (st.data.length : ℤ) - 1) :
    (((stepCW cfg rng st).data.getD (st.i + 1).toNat dYR).color.getD []).Perm
        ((st.data.getD (st.i + 1).toNat dYR).color.getD []) ∧
    ((cfg.smartSampling.enabled && cfg.smartSampling.prioritizeChroma) = false →
      ((stepCW cfg rng st).data.getD (st.i + 1).toNat dYR).color =
        (st.data.getD (st.i + 1).toNat dYR).color) := by
  have hnot : ¬ st.i ≥ (st.data.length : ℤ) - 1 := by omega
  have hidx : (st.i + 1).toNat < st.data.length := by omega
  have hdata : (stepCW cfg rng st).data =
      st.data.set (st.i + 1).toNat
        { st.data.getD (st.i + 1).toNat dYR with
          color := mutatedColor cfg (st.data.getD (st.i + 1).toNat dYR).color } := by
    simp only [stepCW, if_neg hnot]
    exact processColorsCW_data cfg rng _ _ _
  rw [hdata, getD_set_self _ _ _ _ hidx]
  constructor
  · cases hc : (st.data.getD (st.i + 1).toNat dYR).color with
    | none => simp [mutatedColor]
    | some cs =>
      simp only [mutatedColor, Option.map_some, Option.getD_some]
      split
      · exact List.perm_insertionSort chromaGE cs
      · exact List.Perm.refl cs
  · intro hoff
    simp [mutatedColor, hoff, Option.map_id']

/-- Claim C9 amended witness at the concrete one-year state. -/
theorem claim9_yearrecord_mutation_amended_witness :
    (-1 ≤ exCWState.i ∧ exCWState.i < (exCWState.data.length : ℤ) - 1) ∧
    ((((stepCW CONFIG rng0 exCWState).data.getD (exCWState.i + 1).toNat dYR).color.getD []).Perm
        ((exCWState.data.getD (exCWState.i + 1).toNat dYR).color.getD []) ∧
     ((CONFIG.smartSampling.enabled && CONFIG.smartSampling.prioritizeChroma) = false →
       ((stepCW CONFIG rng0 exCWState).data.getD (exCWState.i + 1).toNat dYR).color =
         (exCWState.data.getD (exCWState.i + 1).toNat dYR).color)) :=
  ⟨⟨by decide, by decide⟩,
   claim9_yearrecord_mutation_amended CONFIG rng0 exCWState (by decide) (by decide)⟩

/-- The key of a stored sample: the quantized triple it was computed from,
whose comma join is the string stored in the seen set. -/
def sampleKey (cd : ColorSample) : RGB := cd.rgb

/-- The dedup invariant of the visualization state: the stored samples have
pairwise distinct quantized keys, and the seen set holds exactly those keys. -/
def VizInv (st : VizState) : Prop :=
  (st.colorData.map sampleKey).Nodup ∧
  ∀ k, k ∈ st.seen ↔ k ∈ st.colorData.map sampleKey

/-- The dedup invariant of the timeline state, with the raw unpacked triple
as the key. -/
def TLInv (st : TLState) : Prop :=
  (st.colorData.map sampleKey).Nodup ∧
  ∀ k, k ∈ st.seen ↔ k ∈ st.colorData.map sampleKey

/-- The color loop of visualization.js preserves the dedup invariant: a color
whose quantized key was seen is skipped, and a new key is recorded in the
seen set exactly when its sample is pushed. -/
theorem vizInv_processColors (cfg : Config) (rng : ℕ → Jitter) :
    ∀ (colors : List RGB) (st : VizState) (acc : List ColorSample),
      VizInv st → VizInv (processColors cfg rng colors st acc).1 := by
  intro colors
  induction colors with
  | nil => intro st acc h; exact h
  | cons rgb rest ih =>
    intro st acc h
    obtain ⟨hnd, hiff⟩ := h
    simp only [processColors]
    split
    · exact ih st acc ⟨hnd, hiff⟩
    · rename_i hnew
      refine ih _ _ ⟨?_, ?_⟩
      · simp only [List.map_append, List.map_cons, List.map_nil, sampleKey,
          calculatePosition_rgb]
        rw [List.nodup_append]
        refine ⟨hnd, List.nodup_singleton _, ?_⟩
        intro a ha hb
        rw [List.mem_singleton] at hb
        subst hb
        exact hnew ((hiff _).mpr ha)
      · intro k
        simp only [List.mem_cons, List.map_append, List.map_cons, List.map_nil,
          List.mem_append, List.mem_singleton, sampleKey, calculatePosition_rgb]
        rw [hiff k]
        tauto

/-- step of visualization.js preserves the dedup invariant. -/
theorem vizInv_step (cfg : Config) (rng : ℕ → Jitter) (st : VizState)
    (h : VizInv st) : VizInv (stepViz cfg rng st) := by
  simp only [stepViz]
  split
  · exact h
  · exact vizInv_processColors cfg rng _ _ _ h

/-- Every state reached by stepping from a freshly initialized visualization
satisfies the dedup invariant. -/
theorem vizInv_iterate (cfg : Config) (rng : ℕ → Jitter) (data : List YearRecord) :
    ∀ n : ℕ, VizInv ((stepViz cfg rng)^[n] (initViz data)) := by
  intro n
  induction n with
  | zero => exact ⟨List.nodup_nil, fun k => by simp [initViz]⟩
  | succ n ih =>
    rw [Function.iterate_succ_apply']
    exact vizInv_step cfg rng _ ih

/-- The packed-color loop of colorProcessor.js only touches the seen set and
the random index; colorData is copied into only after the loop. -/
theorem processPacked_colorData (cfg : Config) (rng : ℕ → Jitter) :
    ∀ (packs : List ℕ) (st : TLState) (acc : List ColorSample),
      (processPacked cfg rng packs st acc).1.colorData = st.colorData := by
  intro packs
  induction packs with
  | nil => intro st acc; rfl
  | cons p rest ih =>
    intro st acc
    simp only [processPacked]
    split
    · exact ih _ _
    · exact ih _ _

/-- Invariant of the packed-color loop: with the stored keys and the keys of
the accumulated year samples pairwise distinct and the seen set holding
exactly their union, the loop preserves both properties. -/
theorem tlInv_processPacked (cfg : Config) (rng : ℕ → Jitter) :
    ∀ (packs : List ℕ) (st : TLState) (acc : List ColorSample),
      (st.colorData.map sampleKey ++ acc.map sampleKey).Nodup →
      (∀ k, k ∈ st.seen ↔ k ∈ st.colorData.map sampleKey ++ acc.map sampleKey) →
      ((processPacked cfg rng packs st acc).1.colorData.map sampleKey ++
        (processPacked cfg rng packs st acc).2.map sampleKey).Nodup ∧
      ∀ k, k ∈ (processPacked cfg rng packs st acc).1.seen ↔
        k ∈ (processPacked cfg rng packs st acc).1.colorData.map sampleKey ++
            (processPacked cfg rng packs st acc).2.map sampleKey := by
  intro packs
  induction packs with
  | nil => intro st acc hnd hiff; exact ⟨hnd, hiff⟩
  | cons p rest ih =>
    intro st acc hnd hiff
    simp only [processPacked]
    split
    · exact ih st acc hnd hiff
    · rename_i hnew
      refine ih _ _ ?_ ?_
      · simp only [List.map_append, List.map_cons, List.map_nil, sampleKey,
          calculatePosition_rgb, ← List.append_assoc]
        rw [List.nodup_append]
        refine ⟨by simpa [sampleKey] using hnd, List.nodup_singleton _, ?_⟩
        intro a ha hb
        rw [List.mem_singleton] at hb
        subst hb
        exact hnew ((hiff _).mpr (by simpa [sampleKey] using ha))
      · intro k
        simp only [List.mem_cons, List.map_append, List.map_cons, List.map_nil,
          List.mem_append, List.mem_singleton, sampleKey, calculatePosition_rgb]
        have := hiff k
        simp only [List.mem_append, sampleKey] at this
        rw [this]
        tauto

/-- A successful Timeline.step preserves the dedup invariant. -/
theorem tlInv_step (cfg : Config) (rng : ℕ → Jitter) (st st2 : TLState)
    (h : TLInv st) (hstep : stepTL cfg rng st = Except.ok st2) : TLInv st2 := by
  unfold stepTL at hstep
  split at hstep
  · simp only [Except.ok.injEq] at hstep
    subst hstep
    exact h
  · dsimp only at hstep
    split at hstep
    · cases hstep
    · rename_i pr heq
      simp only [Except.ok.injEq] at hstep
      subst hstep
      unfold processYearCP at heq
      split at heq
      · cases heq
      · rename_i packs hcol
        simp only [Except.ok.injEq] at heq
        subst heq
        have hl := tlInv_processPacked cfg rng packs { st with i := st.i + 1 } []
          (by simpa using h.1) (by intro k; simpa using h.2 k)
        constructor
        · simpa [List.map_append] using hl.1
        · intro k
          simpa [List.map_append] using hl.2 k

/-- Replaying any number of successful Timeline.steps preserves the dedup
invariant. -/
theorem tlInv_replay (cfg : Config) (rng : ℕ → Jitter) :
    ∀ (n : ℕ) (st st2 : TLState), TLInv st →
      replayTL cfg rng n st = Except.ok st2 → TLInv st2 := by
  intro n
  induction n with
  | zero =>
    intro st st2 h hr
    simp only [replayTL, Except.ok.injEq] at hr
    subst hr
    exact h
  | succ n ih =>
    intro st st2 h hr
    simp only [replayTL] at hr
    split at hr
    · cases hr
    · rename_i st1 hstep
      exact ih st1 st2 (tlInv_step cfg rng st st1 h hstep) hr

/-- Claim C1: dedup idempotence.  For every sequence of years processed by
step()/processYear from a fresh state, the SampleStore holds at most one
ColorSample per distinct quantized key (the stored keys are pairwise
distinct) and the seen set holds exactly the stored keys, so feeding the
same RawColor a second time, in the same or a later year, never pushes a
second sample for its key.  The first conjunct covers the visualization.js
engine (quantized keys), the second the timeline.js engine driven by
ColorProcessor.processYear (raw unpacked keys). -/
theorem claim1_dedup_idempotence :
    (∀ (cfg : Config) (rng : ℕ → Jitter) (data : List YearRecord) (n : ℕ),
       VizInv ((stepViz cfg rng)^[n] (initViz data))) ∧
    (∀ (cfg : Config) (rng : ℕ → Jitter) (data : List PackedYearRecord) (n : ℕ)
       (st : TLState), replayTL cfg rng n (initTL data) = Except.ok st → TLInv st) :=
  ⟨fun cfg rng data n => vizInv_iterate cfg rng data n,
   fun cfg rng data n st hr =>
     tlInv_replay cfg rng n (initTL data) st
       ⟨List.nodup_nil, fun k => by simp [initTL]⟩ hr⟩

/-- Claim C1 witness: one step over the empty dataset succeeds and the
resulting state satisfies the invariant. -/
theorem claim1_dedup_idempotence_witness :
    replayTL CONFIG rng0 1 (initTL []) = Except.ok { initTL [] with playing := false } ∧
    TLInv { initTL [] with playing := false } :=
  ⟨rfl, claim1_dedup_idempotence.2 CONFIG rng0 [] 1 { initTL [] with playing := false } rfl⟩

/-- The color loop of visualization.js leaves the cursor and the data list
untouched. -/
theorem processColors_i_data (cfg : Config) (rng : ℕ → Jitter) :
    ∀ (colors : List RGB) (st : VizState) (acc : List ColorSample),
      (processColors cfg rng colors st acc).1.i = st.i ∧
      (processColors cfg rng colors st acc).1.data = st.data := by
  intro colors
  induction colors with
  | nil => intro st acc; exact ⟨rfl, rfl⟩
  | cons rgb rest ih =>
    intro st acc
    simp only [processColors]
    split
    · exact ih _ _
    · exact ih _ _

/-- Two visualization states agree on everything the dedup pipeline can
observe: cursor, data, seen set, and the quantized keys of the store, in
order.  The positions may differ (they depend on the random draws). -/
def KeysEq (a b : VizState) : Prop :=
  a.i = b.i ∧ a.data = b.data ∧ a.seen = b.seen ∧
  a.colorData.map sampleKey = b.colorData.map sampleKey

/-- The color loop preserves KeysEq across runs with different random
streams: the dedup decisions depend only on the keys. -/
theorem keysEq_processColors (cfg : Config) (rng rng2 : ℕ → Jitter) :
    ∀ (colors : List RGB) (a b : VizState) (acca accb : List ColorSample),
      KeysEq a b →
      KeysEq (processColors cfg rng colors a acca).1
        (processColors cfg rng2 colors b accb).1 := by
  intro colors
  induction colors with
  | nil => intro a b acca accb h; exact h
  | cons rgb rest ih =>
    intro a b acca accb h
    obtain ⟨hi, hd, hs, hc⟩ := h
    simp only [processColors]
    by_cases hm : quantizeColor cfg rgb ∈ b.seen
    · rw [if_pos (hs ▸ hm), if_pos hm]
      exact ih a b acca accb ⟨hi, hd, hs, hc⟩
    · rw [if_neg (hs ▸ hm), if_neg hm]
      refine ih _ _ _ _ ⟨hi, hd, by rw [hs], ?_⟩
      simp only [List.map_append, List.map_cons, List.map_nil, sampleKey,
        calculatePosition_rgb, hc]

/-- step preserves KeysEq across runs with different random streams. -/
theorem keysEq_step (cfg : Config) (rng rng2 : ℕ → Jitter) (a b : VizState)
    (h : KeysEq a b) : KeysEq (stepViz cfg rng a) (stepViz cfg rng2 b) := by
  obtain ⟨hi, hd, hs, hc⟩ := h
  simp only [stepViz]
  by_cases hend : a.i ≥ (a.data.length : ℤ) - 1
  · rw [if_pos hend, if_pos (by rw [← hi, ← hd]; exact hend)]
    exact ⟨hi, hd, hs, hc⟩
  · rw [if_neg hend, if_neg (by rw [← hi, ← hd]; exact hend)]
    simp only [processYear]
    rw [← hi, ← hd]
    have hk := keysEq_processColors cfg rng rng2
      ((a.data.getD (a.i + 1).toNat dYR).color.getD [])
      { a with i := a.i + 1 } { b with i := a.i + 1, data := a.data } [] []
      ⟨rfl, rfl, hs, hc⟩
    exact ⟨hk.1, hk.2.1, hk.2.2.1, hk.2.2.2⟩

/-- Iterated steps preserve KeysEq across runs with different random streams. -/
theorem keysEq_iterate (cfg : Config) (rng rng2 : ℕ → Jitter) :
    ∀ (n : ℕ) (a b : VizState), KeysEq a b →
      KeysEq ((stepViz cfg rng)^[n] a) ((stepViz cfg rng2)^[n] b) := by
  intro n
  induction n with
  | zero => intro a b h; exact h
  | succ n ih =>
    intro a b h
    rw [Function.iterate_succ_apply, Function.iterate_succ_apply]
    exact ih _ _ (keysEq_step cfg rng rng2 a b h)

/-- Below the last index, step advances the cursor by exactly one and leaves
the data list unchanged. -/
theorem stepViz_advance (cfg : Config) (rng : ℕ → Jitter) (st : VizState)
    (h : ¬ st.i ≥ (st.data.length : ℤ) - 1) :
    (stepViz cfg rng st).i = st.i + 1 ∧ (stepViz cfg rng st).data = st.data := by
  simp only [stepViz, if_neg h, processYear]
  exact processColors_i_data cfg rng _ _ _

/-- The fueled while loop of jumpToYear equals iterating step the number of
times that brings the cursor from its current value to the index, as long as
the index is a valid position and there is enough fuel. -/
theorem stepUntil_eq_iterate (cfg : Config) (rng : ℕ → Jitter) (index : ℕ) :
    ∀ (fuel : ℕ) (st : VizState), -1 ≤ st.i → st.i ≤ (index : ℤ) →
      (index : ℤ) < (st.data.length : ℤ) →
      ((index : ℤ) - st.i).toNat < fuel →
      stepUntil cfg rng index fuel st =
        (stepViz cfg rng)^[((index : ℤ) - st.i).toNat] st := by
  intro fuel
  induction fuel with
  | zero => intro st h1 h2 h3 hf; omega
  | succ fuel ih =>
    intro st h1 h2 h3 hf
    simp only [stepUntil]
    by_cases hlt : st.i < (index : ℤ)
    · rw [if_pos hlt]
      have hadv := stepViz_advance cfg rng st (by omega)
      have heq : ((index : ℤ) - st.i).toNat =
          ((index : ℤ) - (stepViz cfg rng st).i).toNat + 1 := by
        rw [hadv.1]; omega
      rw [heq, Function.iterate_succ_apply]
      have h1b : -1 ≤ (stepViz cfg rng st).i := by rw [hadv.1]; omega
      have h2b : (stepViz cfg rng st).i ≤ (index : ℤ) := by rw [hadv.1]; omega
      have h3b : (index : ℤ) < ((stepViz cfg rng st).data.length : ℤ) := by
        rw [hadv.2]; exact h3
      have hfb : ((index : ℤ) - (stepViz cfg rng st).i).toNat < fuel := by
        rw [hadv.1]; omega
      exact ih (stepViz cfg rng st) h1b h2b h3b hfb
    · rw [if_neg hlt]
      have h0 : ((index : ℤ) - st.i).toNat = 0 := by omega
      rw [h0, Function.iterate_zero_apply]

/-- Claim C2: backward-jump equivalence.  For every loaded dataset and every
target index below the current cursor (and within the data), jumpToYear
resets and replays, and the resulting SampleStore content, as the ordered
list of quantized keys (hence in particular as a set of keys), is identical
to that of a full forward replay of index + 1 steps from a freshly
initialized state — whatever random draws either run uses. -/
theorem claim2_backward_jump_equiv (cfg : Config) (rng rng2 : ℕ → Jitter)
    (st : VizState) (index : ℕ)
    (hb : (index : ℤ) < st.i) (hlen : index < st.data.length) :
    (jumpToYear cfg rng index st).colorData.map sampleKey =
      ((stepViz cfg rng2)^[index + 1] (initViz st.data)).colorData.map sampleKey := by
  unfold jumpToYear
  rw [if_pos hb]
  have hloop := stepUntil_eq_iterate cfg rng index (index + 2)
    { resetViz st with i := -1 }
    (by exact le_refl (-1))
    (by show (-1 : ℤ) ≤ (index : ℤ); omega)
    (by show (index : ℤ) < (st.data.length : ℤ); exact_mod_cast hlen)
    (by show ((index : ℤ) - (-1)).toNat < index + 2; omega)
  have hexp : ((index : ℤ) - ({ resetViz st with i := -1 } : VizState).i).toNat =
      index + 1 := by
    show ((index : ℤ) - (-1)).toNat = index + 1
    omega
  rw [hexp] at hloop
  rw [hloop]
  exact (keysEq_iterate cfg rng rng2 (index + 1) { resetViz st with i := -1 }
    (initViz st.data) ⟨rfl, rfl, rfl, rfl⟩).2.2.2

/-- A concrete two-year state whose cursor sits at the second year. -/
noncomputable def exJumpState : VizState where
  data := [{ year := 1850, color := some [(10, 10, 10), (200, 30, 30)] },
           { year := 1851, color := some [(10, 10, 10), (0, 200, 0)] }]
  i := 1
  playing := false
  colorData := []
  seen := []
  totalSpheres := 0
  instanceCount := 0
  mesh := mkMesh 4
  rngIdx := 0

/-- Claim C2 witness: a backward jump to index 0 from cursor 1. -/
theorem claim2_backward_jump_equiv_witness :
    (((0 : ℕ) : ℤ) < exJumpState.i ∧ (0 : ℕ) < exJumpState.data.length) ∧
    (jumpToYear CONFIG rng0 0 exJumpState).colorData.map sampleKey =
      ((stepViz CONFIG rng0)^[0 + 1] (initViz exJumpState.data)).colorData.map sampleKey :=
  ⟨⟨by decide, by decide⟩,
   claim2_backward_jump_equiv CONFIG rng0 rng0 exJumpState 0 (by decide) (by decide)⟩

/-- The lightness returned by rgbToHsl is the mean of the extremal channels
in both branches. -/
theorem rgbToHsl_l (rgb : RGB) :
    (rgbToHsl rgb).2.2 =
      (max ((rgb.1 : ℚ) / 255) (max ((rgb.2.1 : ℚ) / 255) ((rgb.2.2 : ℚ) / 255)) +
       min ((rgb.1 : ℚ) / 255) (min ((rgb.2.1 : ℚ) / 255) ((rgb.2.2 : ℚ) / 255))) / 2 := by
  simp only [rgbToHsl]
  split
  · rfl
  · rfl

/-- For channel values up to 255, the lightness lies in the unit interval. -/
theorem rgbToHsl_l_bounds (rgb : RGB)
    (h1 : rgb.1 ≤ 255) (h2 : rgb.2.1 ≤ 255) (h3 : rgb.2.2 ≤ 255) :
    0 ≤ (rgbToHsl rgb).2.2 ∧ (rgbToHsl rgb).2.2 ≤ 1 := by
  rw [rgbToHsl_l]
  have hr1 : (rgb.1 : ℚ) / 255 ≤ 1 := by
    rw [div_le_one (by norm_num)]
    exact_mod_cast h1
  have hg1 : (rgb.2.1 : ℚ) / 255 ≤ 1 := by
    rw [div_le_one (by norm_num)]
    exact_mod_cast h2
  have hb1 : (rgb.2.2 : ℚ) / 255 ≤ 1 := by
    rw [div_le_one (by norm_num)]
    exact_mod_cast h3
  have hr0 : (0 : ℚ) ≤ (rgb.1 : ℚ) / 255 := by positivity
  have hg0 : (0 : ℚ) ≤ (rgb.2.1 : ℚ) / 255 := by positivity
  have hb0 : (0 : ℚ) ≤ (rgb.2.2 : ℚ) / 255 := by positivity
  have hmax1 : max ((rgb.1 : ℚ) / 255) (max ((rgb.2.1 : ℚ) / 255) ((rgb.2.2 : ℚ) / 255)) ≤ 1 :=
    max_le hr1 (max_le hg1 hb1)
  have hmax0 : (0 : ℚ) ≤
      max ((rgb.1 : ℚ) / 255) (max ((rgb.2.1 : ℚ) / 255) ((rgb.2.2 : ℚ) / 255)) :=
    le_trans hr0 (le_max_left _ _)
  have hmin0 : (0 : ℚ) ≤
      min ((rgb.1 : ℚ) / 255) (min ((rgb.2.1 : ℚ) / 255) ((rgb.2.2 : ℚ) / 255)) :=
    le_min hr0 (le_min hg0 hb0)
  have hmin1 : min ((rgb.1 : ℚ) / 255) (min ((rgb.2.1 : ℚ) / 255) ((rgb.2.2 : ℚ) / 255)) ≤ 1 :=
    le_trans (min_le_left _ _) hr1
  constructor
  · linarith
  · linarith

/-- Claim C5: grayscale placement.  For every RawColor whose HSL saturation
is below the configured grayscale threshold, with jitter disabled, the
horizontal radius sqrt(x^2 + z^2) of the calculated position equals exactly
0.1 times radius_max = R * sin(phi), where phi = (1 - lightness) * pi is
independent of the hue; the hue enters only through the deterministic
pseudo-angle theta = greyAngle(rgb). -/
theorem claim5_grayscale_radius (cfg : Config) (rnd : Jitter) (rgb : RGB)
    (hj : cfg.jitter.enabled = false)
    (hgray : (rgbToHsl rgb).2.1 < cfg.grayscaleThreshold)
    (hR : 0 ≤ cfg.radius)
    (h1 : rgb.1 ≤ 255) (h2 : rgb.2.1 ≤ 255) (h3 : rgb.2.2 ≤ 255) :
    Real.sqrt ((calculatePosition cfg rnd rgb).x ^ 2 +
        (calculatePosition cfg rnd rgb).z ^ 2) =
      0.1 * ((cfg.radius : ℝ) * Real.sin ((calculatePosition cfg rnd rgb).phi)) ∧
    (calculatePosition cfg rnd rgb).phi =
      (1 - ((rgbToHsl rgb).2.2 : ℝ)) * Real.pi ∧
    (calculatePosition cfg rnd rgb).theta = greyAngle rgb := by
  have hgd : decide ((rgbToHsl rgb).2.1 < cfg.grayscaleThreshold) = true :=
    decide_eq_true hgray
  simp only [calculatePosition, hj, Bool.false_eq_true, if_false, hgd, if_true,
    Rat.cast_zero, Rat.cast_one, add_zero, mul_one]
  refine ⟨?_, trivial, trivial⟩
  have hl := rgbToHsl_l_bounds rgb h1 h2 h3
  have hl0 : (0 : ℝ) ≤ ((rgbToHsl rgb).2.2 : ℝ) := by exact_mod_cast hl.1
  have hl1 : ((rgbToHsl rgb).2.2 : ℝ) ≤ 1 := by exact_mod_cast hl.2
  have hphi0 : (0 : ℝ) ≤ (1 - ((rgbToHsl rgb).2.2 : ℝ)) * Real.pi :=
    mul_nonneg (by linarith) Real.pi_pos.le
  have hphipi : (1 - ((rgbToHsl rgb).2.2 : ℝ)) * Real.pi ≤ Real.pi := by
    nlinarith [Real.pi_pos]
  have hsin : (0 : ℝ) ≤ Real.sin ((1 - ((rgbToHsl rgb).2.2 : ℝ)) * Real.pi) :=
    Real.sin_nonneg_of_nonneg_of_le_pi hphi0 hphipi
  have hRr : (0 : ℝ) ≤ (cfg.radius : ℝ) := by exact_mod_cast hR
  have hr0 : (0 : ℝ) ≤
      0.1 * ((cfg.radius : ℝ) * Real.sin ((1 - ((rgbToHsl rgb).2.2 : ℝ)) * Real.pi)) :=
    mul_nonneg (by norm_num) (mul_nonneg hRr hsin)
  rw [show (0.1 * ((cfg.radius : ℝ) *
        Real.sin ((1 - ((rgbToHsl rgb).2.2 : ℝ)) * Real.pi)) *
        Real.cos (greyAngle rgb)) ^ 2 +
      (0.1 * ((cfg.radius : ℝ) *
        Real.sin ((1 - ((rgbToHsl rgb).2.2 : ℝ)) * Real.pi)) *
        Real.sin (greyAngle rgb)) ^ 2 =
      (0.1 * ((cfg.radius : ℝ) *
        Real.sin ((1 - ((rgbToHsl rgb).2.2 : ℝ)) * Real.pi))) ^ 2 *
      (Real.sin (greyAngle rgb) ^ 2 + Real.cos (greyAngle rgb) ^ 2) from by ring]
  rw [Real.sin_sq_add_cos_sq, mul_one, Real.sqrt_sq hr0]

/-- Claim C5 witness at the jitter-disabled CONFIG and the gray (10, 10, 10). -/
theorem claim5_grayscale_radius_witness :
    (cfgNoJitter.jitter.enabled = false ∧
     (rgbToHsl (10, 10, 10)).2.1 < cfgNoJitter.grayscaleThreshold ∧
     0 ≤ cfgNoJitter.radius) ∧
    (Real.sqrt ((calculatePosition cfgNoJitter { u1 := 0, u2 := 0, u3 := 0 }
          (10, 10, 10)).x ^ 2 +
        (calculatePosition cfgNoJitter { u1 := 0, u2 := 0, u3 := 0 } (10, 10, 10)).z ^ 2) =
      0.1 * ((cfgNoJitter.radius : ℝ) *
        Real.sin ((calculatePosition cfgNoJitter { u1 := 0, u2 := 0, u3 := 0 }
          (10, 10, 10)).phi)) ∧
     (calculatePosition cfgNoJitter { u1 := 0, u2 := 0, u3 := 0 } (10, 10, 10)).phi =
       (1 - ((rgbToHsl (10, 10, 10)).2.2 : ℝ)) * Real.pi ∧
     (calculatePosition cfgNoJitter { u1 := 0, u2 := 0, u3 := 0 } (10, 10, 10)).theta =
       greyAngle (10, 10, 10)) :=
  ⟨⟨rfl, by with_unfolding_all decide, by with_unfolding_all decide⟩,
   claim5_grayscale_radius cfgNoJitter { u1 := 0, u2 := 0, u3 := 0 } (10, 10, 10) rfl
     (by with_unfolding_all decide) (by with_unfolding_all decide)
     (by decide) (by decide) (by decide)⟩
